import Mathlib

/-!
Verification of the Airweave file-browser and selective-upload endpoints
(`backend/airweave/api/v1/endpoints/file_browser.py` and
`backend/airweave/api/v1/endpoints/file_upload.py`).

The two endpoints are shallowly embedded as pure Lean functions over an
explicit environment of upstream (Microsoft Graph) call outcomes.  Every
upstream call that the Python code performs with `_get_with_auth`,
`_get_download_url`, `_build_file_entity`, `download_from_url` or
`bulk_insert` is represented as an `Except`-valued field of the
environment: `.error` means the Python call raised, `.ok` means it
returned.  HTTP 401-style failures are distinguished inside the upstream
error type because the endpoints branch on them.

Python `dict.get` with a string default is modelled as `Option String`
plus `Option.getD`; Python truthiness of an optional string ("None or
empty string is falsy") is the `truthy` predicate below.  Identifier
fields that the code reads with `.get("id")` are modelled as `String`,
with the empty string standing for an absent/None id (both are falsy in
every guard the code applies to them).
-/

deriving instance DecidableEq for Except

/-- Python truthiness of an optional string: `None` and `""` are falsy. -/
def truthy : Option String → Bool
  | none => false
  | some s => s ≠ ""

namespace Upload

/-- The part of an upstream drive-item metadata dict that
`upload_selected_files` reads: `file_data.get("name", "Unknown")` and the
presence of the `"file"` facet (`"file" in file_data`). -/
structure FileMeta where
  name : Option String
  isFile : Bool
  deriving Repr, DecidableEq

/-- The part of the constructed file entity that the endpoint reads:
`file_entity.name` and `file_entity.id` (used for the S3 path). -/
structure FileEntity where
  name : String
  id : String
  deriving Repr, DecidableEq

/-- Outcomes of the five per-item upstream steps for one file id.
`.error msg` means the corresponding Python call raised an exception
whose `str` is `msg`. -/
structure ItemEnv where
  /-- Models `source._get_with_auth(client, file_url)` — metadata resolution. -/
  metadata : Except String FileMeta
  /-- Models `source._get_download_url(client, drive_id, file_id)`. -/
  downloadUrl : Except String (Option String)
  /-- Models `source._build_file_entity(...)` — `none` models a falsy entity. -/
  buildEntity : Except String (Option FileEntity)
  /-- Models `source.file_downloader.download_from_url(...)`; the payload is the
  resulting `file_entity.local_path`. -/
  download : Except String (Option String)
  /-- Models `s3_destination.bulk_insert([file_entity])`. -/
  bulkInsert : Except String Unit
  deriving Repr, DecidableEq

/-- Destination identity used to compute the S3 path string. -/
structure S3Cfg where
  bucketName : String
  bucketPfx : String
  collectionReadableId : String
  deriving Repr, DecidableEq

/-- One element of `results` (`FileUploadResult` in the Python module). -/
structure FileUploadResult where
  file_id : String
  file_name : String
  status : String
  error : Option String := none
  s3_path : Option String := none
  deriving Repr, DecidableEq

/-- The endpoint response (`FileUploadResponse` in the Python module). -/
structure FileUploadResponse where
  total_files : Nat
  successful : Nat
  failed : Nat
  skipped : Nat
  results : List FileUploadResult
  deriving Repr, DecidableEq

/-- Models `f"s3://{bucket_name}/{bucket_prefix}collections/{readable_id}/blobs/{file_entity.id}"`. -/
def s3PathOf (cfg : S3Cfg) (ent : FileEntity) : String :=
  "s3://" ++ cfg.bucketName ++ "/" ++ cfg.bucketPfx ++ "collections/" ++
    cfg.collectionReadableId ++ "/blobs/" ++ ent.id

/-- The body of the `for file_id in request.file_ids` loop: one iteration,
producing exactly one `FileUploadResult`.  The surrounding
`try/except Exception` of the loop body turns every raised step into a
`"failed"` outcome with `file_name="Unknown"` and `error=str(e)`; the
explicit non-raising branches use the names the code computes. -/
def processItem (env : String → ItemEnv) (cfg : S3Cfg) (fid : String) :
    FileUploadResult :=
  match (env fid).metadata with
  | .error m => { file_id := fid, file_name := "Unknown", status := "failed", error := some m }
  | .ok fd =>
    if ¬ fd.isFile then
      { file_id := fid, file_name := fd.name.getD "Unknown", status := "skipped",
        error := some "Not a file (may be a folder)" }
    else
      match (env fid).downloadUrl with
      | .error m => { file_id := fid, file_name := "Unknown", status := "failed", error := some m }
      | .ok du =>
        if ¬ truthy du then
          { file_id := fid, file_name := fd.name.getD "Unknown", status := "failed",
            error := some "Could not get download URL" }
        else
          match (env fid).buildEntity with
          | .error m => { file_id := fid, file_name := "Unknown", status := "failed", error := some m }
          | .ok none =>
            { file_id := fid, file_name := fd.name.getD "Unknown", status := "skipped",
              error := some "Could not create file entity" }
          | .ok (some ent) =>
            match (env fid).download with
            | .error m => { file_id := fid, file_name := "Unknown", status := "failed", error := some m }
            | .ok lp =>
              if ¬ truthy lp then
                { file_id := fid, file_name := ent.name, status := "failed",
                  error := some "File download failed" }
              else
                match (env fid).bulkInsert with
                | .error m =>
                  { file_id := fid, file_name := "Unknown", status := "failed", error := some m }
                | .ok _ =>
                  { file_id := fid, file_name := ent.name, status := "success",
                    s3_path := some (s3PathOf cfg ent) }

/-- Loop state: `(results, successful, failed, skipped)`. -/
abbrev LoopState := List FileUploadResult × Nat × Nat × Nat

/-- One loop iteration appends the item's result and bumps exactly the
counter that the taken branch of the Python code increments (every branch
of the loop body increments the counter matching the status it appends). -/
def stepItem (env : String → ItemEnv) (cfg : S3Cfg) (st : LoopState) (fid : String) :
    LoopState :=
  let r := processItem env cfg fid
  (st.1 ++ [r],
   (if r.status = "success" then st.2.1 + 1 else st.2.1),
   (if r.status = "failed" then st.2.2.1 + 1 else st.2.2.1),
   (if r.status = "skipped" then st.2.2.2 + 1 else st.2.2.2))

/-- Models `upload_selected_files` from the point where the per-item loop starts
(source construction, S3 configuration and credential lookup succeed):
processes `file_ids` strictly sequentially and returns the
`FileUploadResponse` with `total_files=len(request.file_ids)`. -/
def upload_selected_files (env : String → ItemEnv) (cfg : S3Cfg)
    (fileIds : List String) : FileUploadResponse :=
  let st := fileIds.foldl (stepItem env cfg) ([], 0, 0, 0)
  { total_files := fileIds.length
    successful := st.2.1
    failed := st.2.2.1
    skipped := st.2.2.2
    results := st.1 }

end Upload

namespace Upload

/-- One of the five per-item upstream steps raises an uncaught exception
whose text is `m`, the earlier steps having passed their guards — i.e.
the loop-body `except Exception` clause fires with `str(e) = m`. -/
def raisesWith (it : ItemEnv) (m : String) : Prop :=
  it.metadata = .error m ∨
  ∃ fd, it.metadata = .ok fd ∧ fd.isFile = true ∧
    (it.downloadUrl = .error m ∨
     ∃ du, it.downloadUrl = .ok du ∧ truthy du = true ∧
       (it.buildEntity = .error m ∨
        ∃ ent, it.buildEntity = .ok (some ent) ∧
          (it.download = .error m ∨
           ∃ lp, it.download = .ok lp ∧ truthy lp = true ∧ it.bulkInsert = .error m)))

end Upload

namespace Browser

/-- Upstream (Microsoft Graph) call failure, as the endpoint observes it:
`httpx.HTTPStatusError` with the response status code, or any other
exception.  `msg` carries `str(e)`. -/
inductive UpErr where
  | httpStatus (code : Nat) (msg : String)
  | other (msg : String)
  deriving Repr, DecidableEq

/-- Models `str(e)` of an upstream exception. -/
def UpErr.msg : UpErr → String
  | .httpStatus _ m => m
  | .other m => m

/-- The fields of an upstream site dict that the endpoint reads.  `id` is
`site.get("id")` with `""` for an absent/None id (falsy in every guard
applied to it). -/
structure SiteRec where
  id : String
  displayName : Option String
  name : Option String
  deriving Repr, DecidableEq

/-- One page of a paginated `/sites` listing: `value` plus the
`@odata.nextLink` continuation URL. -/
structure SitesPage where
  value : List SiteRec
  nextLink : Option String
  deriving Repr, DecidableEq

/-- The fields of a Teams group dict that the endpoint reads. -/
structure GroupRec where
  id : String
  displayName : Option String
  deriving Repr, DecidableEq

/-- The fields of a drive dict that the endpoint reads. -/
structure DriveRec where
  id : String
  name : Option String
  deriving Repr, DecidableEq

/-- The fields of a drive child item that the endpoint reads.
`hasFolder` / `hasFile` model `"folder" in item` / `"file" in item`. -/
structure DriveItem where
  id : String
  name : Option String
  hasFolder : Bool
  hasFile : Bool
  size : Option Nat
  lastModifiedDateTime : Option String
  mimeType : Option String
  deriving Repr, DecidableEq

/-- Models `FileItem` response model of the Python module. -/
structure FileItem where
  id : String
  name : String
  path : String
  size : Option Nat := none
  modified_at : Option String := none
  type : String := "file"
  mime_type : Option String := none
  deriving Repr, DecidableEq

/-- Models `FolderItem` response model of the Python module. -/
structure FolderItem where
  id : String
  name : String
  path : String
  type : String := "folder"
  deriving Repr, DecidableEq

/-- Models `BrowseResponse` response model of the Python module. -/
structure BrowseResponse where
  files : List FileItem
  folders : List FolderItem
  current_path : Option String := none
  parent_path : Option String := none
  deriving Repr, DecidableEq

/-- A FastAPI `HTTPException` as the caller sees it. -/
structure HttpError where
  status : Nat
  detail : String
  deriving Repr, DecidableEq

/-- Failure inside the endpoint body, before the outer exception
handlers: an explicitly raised `HTTPException`, or a propagating upstream
exception. -/
inductive Exc where
  | httpExc (status : Nat) (detail : String)
  | upstream (e : UpErr)
  deriving Repr, DecidableEq

/-- Outcomes of every upstream call the browse endpoint may perform.
Each field corresponds to one `_get_with_auth` / `_list_drive_items`
call site in `browse_files`; `.error` means the call raised. -/
structure BrowseEnv where
  /-- Models `GET /sites/root`. -/
  rootSite : Except UpErr SiteRec
  /-- Models `GET /sites?search=*...` (first attempt). -/
  searchSites : Except UpErr SitesPage
  /-- Models `GET /sites?...` without `search` (fallback attempt). -/
  plainSites : Except UpErr SitesPage
  /-- Models `GET /me/followedSites?...`. -/
  followedSites : Except UpErr (List SiteRec)
  /-- Models `GET /groups?$filter=groupTypes/...`. -/
  groups : Except UpErr (List GroupRec)
  /-- Models `GET /groups/{group_id}/sites/root`, keyed by group id. -/
  groupSite : String → Except UpErr SiteRec
  /-- Models `GET` of an `@odata.nextLink` continuation URL. -/
  nextPage : String → Except UpErr SitesPage
  /-- Models `GET /sites/{site_id}/drives` → `value`, keyed by site id. -/
  drives : String → Except UpErr (List DriveRec)
  /-- Models `GET /sites/{site_id}` (breadcrumb name lookup). -/
  siteInfo : String → Except UpErr SiteRec
  /-- Models `source._list_drive_items(client, drive_id, folder_id)`, fully
  drained; `.error` if the generator raised. -/
  listDriveItems : String → Option String → Except UpErr (List DriveItem)
  /-- Models `GET https://graph.microsoft.com/v1.0/me/drive` (OneDrive only). -/
  meDrive : Except UpErr DriveRec

/-- The dict the endpoint appends for the root site:
`{"id": root.get("id"), "displayName": root.get("displayName", "Root Site"),
"name": root.get("name", "Root Site"), ...}`. -/
def mkRootRec (r : SiteRec) : SiteRec :=
  { id := r.id
    displayName := some (r.displayName.getD "Root Site")
    name := some (r.name.getD "Root Site") }

/-- The dict the endpoint appends for a Teams group's site:
`{"id": site.get("id"), "displayName": group.get("displayName", "Team Site"),
"name": site.get("name", "Team Site"), ...}`. -/
def mkGroupSiteRec (g : GroupRec) (s : SiteRec) : SiteRec :=
  { id := s.id
    displayName := some (g.displayName.getD "Team Site")
    name := some (s.name.getD "Team Site") }

/-- Models `sites_list` after the root-site fetch (lines 219-234): the root dict
if the fetch succeeded, else empty (the exception is logged only). -/
def rootPart (env : BrowseEnv) : List SiteRec :=
  match env.rootSite with
  | .ok r => [mkRootRec r]
  | .error _ => []

/-- Models `root_site_id = sites_list[0].get("id") if sites_list else None`. -/
def rootIdOf (env : BrowseEnv) : Option String :=
  (rootPart env).head?.map (fun s => s.id)

/-- Models `any(s.get("id") == site_id_val for s in l)`. -/
def hasId (l : List SiteRec) (i : String) : Bool :=
  l.any (fun s => s.id = i)

/-- The search stage (lines 242-252): try `/sites?search=*`; on exception
fall back to `/sites` without search.  If both raise, the exception
propagates to the `except` of the enclosing aggregation `try`. -/
def firstPage (env : BrowseEnv) : Except UpErr SitesPage :=
  match env.searchSites with
  | .ok p => .ok p
  | .error _ => env.plainSites

/-- Merging followed sites into `all_sites` (lines 260-264):
`if site_id_val and not any(s.get("id") == site_id_val for s in all_sites):
all_sites.append(site)`. -/
def mergeFollowed (allSites : List SiteRec) (followed : List SiteRec) : List SiteRec :=
  followed.foldl
    (fun acc s => if s.id ≠ "" ∧ ¬ hasId acc s.id then acc ++ [s] else acc)
    allSites

/-- Merging Teams-group sites into `all_sites` (lines 277-295): only the
first 20 groups are resolved (`teams_groups[:20]`); a failing per-group
site fetch is skipped; a fetched site is appended (as a synthesized dict)
iff its id is truthy and not already present. -/
def mergeGroups (env : BrowseEnv) (allSites : List SiteRec) (gs : List GroupRec) :
    List SiteRec :=
  (gs.take 20).foldl
    (fun acc g =>
      match env.groupSite g.id with
      | .error _ => acc
      | .ok s =>
        if s.id ≠ "" ∧ ¬ hasId acc s.id then acc ++ [mkGroupSiteRec g s] else acc)
    allSites

/-- Merging a batch of site dicts into `sites_list` (lines 300-306 and
314-318): `if site_id_val and site_id_val != root_site_id:` then
`if not any(s.get("id") == site_id_val for s in sites_list): append`. -/
def mergeIntoSitesList (rootId : Option String) (sitesList : List SiteRec)
    (sites : List SiteRec) : List SiteRec :=
  sites.foldl
    (fun acc s =>
      if s.id ≠ "" ∧ (∀ r, rootId = some r → s.id ≠ r) ∧ ¬ hasId acc s.id then
        acc ++ [s]
      else acc)
    sitesList

/-- State after running the continuation loop: the final `sites_list`,
the concatenation of the raw `value` lists of the pages it fetched, and
the number of `_get_with_auth` continuation fetches it performed. -/
structure ContRes where
  sites : List SiteRec
  fetched : List SiteRec
  fetchCount : Nat
  deriving Repr, DecidableEq

/-- The continuation loop (lines 308-320):
`while next_url and len(sites_list) < 200 and page_count < 10`.
`budget = 10 - page_count`, so the loop is entered with `budget = 9`.
A raising fetch propagates to the `except` of the aggregation `try`,
which keeps the `sites_list` accumulated so far. -/
def contLoop (env : BrowseEnv) (rootId : Option String) :
    Nat → List SiteRec → Option String → ContRes
  | 0, sl, _ => ⟨sl, [], 0⟩
  | _ + 1, sl, none => ⟨sl, [], 0⟩
  | budget + 1, sl, some url =>
    if url = "" ∨ ¬ sl.length < 200 then ⟨sl, [], 0⟩
    else
      match env.nextPage url with
      | .error _ => ⟨sl, [], 1⟩
      | .ok p =>
        let r := contLoop env rootId budget (mergeIntoSitesList rootId sl p.value) p.nextLink
        ⟨r.sites, p.value ++ r.fetched, r.fetchCount + 1⟩

/-- Models `followed_sites` if that fetch succeeded, else nothing merged. -/
def followedPart (env : BrowseEnv) : List SiteRec :=
  match env.followedSites with
  | .ok fs => fs
  | .error _ => []

/-- Models `teams_groups` if that fetch succeeded, else nothing merged. -/
def groupsPart (env : BrowseEnv) : List GroupRec :=
  match env.groups with
  | .ok gs => gs
  | .error _ => []

/-- Models `all_sites` after the followed-sites merge. -/
def allSites1 (env : BrowseEnv) (p : SitesPage) : List SiteRec :=
  mergeFollowed p.value (followedPart env)

/-- Models `all_sites` after the Teams-group merge. -/
def allSites2 (env : BrowseEnv) (p : SitesPage) : List SiteRec :=
  mergeGroups env (allSites1 env p) (groupsPart env)

/-- Models `sites_list` after merging `all_sites` (line 306). -/
def sitesList1 (env : BrowseEnv) (p : SitesPage) : List SiteRec :=
  mergeIntoSitesList (rootIdOf env) (rootPart env) (allSites2 env p)

/-- The continuation-loop run the endpoint performs for first page `p`. -/
def contRes (env : BrowseEnv) (p : SitesPage) : ContRes :=
  contLoop env (rootIdOf env) 9 (sitesList1 env p) p.nextLink

/-- The final `sites_list` of the aggregation (lines 219-328): if even
the fallback site search raised, the `except` leaves the root entry
(or nothing); otherwise the merged, paginated list. -/
def sitesListOf (env : BrowseEnv) : List SiteRec :=
  match firstPage env with
  | .error _ => rootPart env
  | .ok p => (contRes env p).sites

/-- Models `site.get("displayName") or site.get("name", "Unknown Site")`. -/
def siteFolderName (s : SiteRec) : String :=
  match s.displayName with
  | some d => if d = "" then s.name.getD "Unknown Site" else d
  | none => s.name.getD "Unknown Site"

/-- A site rendered as a synthetic navigable folder (lines 331-339). -/
def siteFolder (s : SiteRec) : FolderItem :=
  { id := s.id, name := siteFolderName s, path := "/sites/" ++ s.id }

/-- Level 1 (no `site_id`): the page of sites-as-folders (lines 342-346). -/
def browseNoSite (env : BrowseEnv) : BrowseResponse :=
  { files := [], folders := (sitesListOf env).map siteFolder, current_path := some "/sites" }

/-- A drive rendered as a synthetic navigable folder (lines 360-367). -/
def driveFolder (siteId : String) (d : DriveRec) : FolderItem :=
  { id := d.id
    name := d.name.getD "Unknown Document Library"
    path := "/sites/" ++ siteId ++ "/drives/" ++ d.id }

/-- Level 2 (`site_id` but no `drive_id`): list document libraries
(lines 349-379).  Zero drives raises `HTTPException(404)`; a raising
drives or site-info fetch propagates to the outer handlers. -/
def browseDrives (env : BrowseEnv) (siteId : String) : Except Exc BrowseResponse :=
  match env.drives siteId with
  | .error e => .error (.upstream e)
  | .ok drivesList =>
    if drivesList.isEmpty then
      .error (.httpExc 404 "No document libraries found in this SharePoint site")
    else
      match env.siteInfo siteId with
      | .error e => .error (.upstream e)
      | .ok _ =>
        .ok { files := []
              folders := drivesList.map (driveFolder siteId)
              current_path := some ("/sites/" ++ siteId ++ "/drives") }

/-- A drive child rendered as a `FolderItem` (lines 394-400):
`item_path = f"/drives/{drive_id}/items/{item_id}"`. -/
def folderEntry (driveId : String) (it : DriveItem) : FolderItem :=
  { id := it.id
    name := it.name.getD "Unknown"
    path := "/drives/" ++ driveId ++ "/items/" ++ it.id }

/-- A drive child rendered as a `FileItem` (lines 402-413). -/
def fileEntry (driveId : String) (it : DriveItem) : FileItem :=
  { id := it.id
    name := it.name.getD "Unknown"
    path := "/drives/" ++ driveId ++ "/items/" ++ it.id
    size := it.size
    modified_at := it.lastModifiedDateTime
    mime_type := it.mimeType }

/-- The classification loop over drive children (lines 387-413 and
460-485): a child with a `"folder"` facet becomes a folder entry, else a
child with a `"file"` facet becomes a file entry, else it is dropped. -/
def classifyItems (driveId : String) (items : List DriveItem) :
    List FileItem × List FolderItem :=
  items.foldl
    (fun acc it =>
      if it.hasFolder then (acc.1, acc.2 ++ [folderEntry driveId it])
      else if it.hasFile then (acc.1 ++ [fileEntry driveId it], acc.2)
      else acc)
    ([], [])

/-- Models `f"/drives/{drive_id}" + (f"/items/{folder_id}" if folder_id else "")`
(line 520). -/
def drivePath (driveId : String) (folderId : Option String) : String :=
  "/drives/" ++ driveId ++ (if truthy folderId then "/items/" ++ folderId.getD "" else "")

/-- Level 3 for SharePoint (`site_id` and `drive_id` present, lines
381-424): list the folder contents.  Any exception from the listing is
wrapped into `HTTPException(500, "Failed to list files in folder: ...")`
by the inner `try/except`. -/
def browseSPFolder (env : BrowseEnv) (driveId : String) (folderId : Option String) :
    Except Exc BrowseResponse :=
  match env.listDriveItems driveId folderId with
  | .error e => .error (.httpExc 500 ("Failed to list files in folder: " ++ e.msg))
  | .ok items =>
    let fs := classifyItems driveId items
    .ok { files := fs.1, folders := fs.2, current_path := some (drivePath driveId folderId) }

/-- The OneDrive branch (lines 426-485): resolve the default drive when
`drive_id` is falsy — with its own 401 mapping — then require a truthy
drive id and list its contents; listing errors propagate to the outer
handlers. -/
def browseOneDrive (env : BrowseEnv) (driveId folderId : Option String) :
    Except Exc BrowseResponse :=
  let resolved : Except Exc (Option String) :=
    if truthy driveId then .ok driveId
    else
      match env.meDrive with
      | .ok d => .ok (some d.id)
      | .error (.httpStatus 401 _) =>
        .error (.httpExc 401
          ("OneDrive authentication failed. Your access token has expired. " ++
           "Please disconnect and reconnect your OneDrive account in the settings."))
      | .error (.httpStatus c m) => .error (.upstream (.httpStatus c m))
      | .error (.other m) => .error (.httpExc 500 ("Failed to access OneDrive: " ++ m))
  match resolved with
  | .error e => .error e
  | .ok did =>
    if ¬ truthy did then .error (.httpExc 404 "No OneDrive found")
    else
      let d := did.getD ""
      match env.listDriveItems d folderId with
      | .error e => .error (.upstream e)
      | .ok items =>
        let fs := classifyItems d items
        .ok { files := fs.1, folders := fs.2, current_path := some (drivePath d folderId) }

/-- The outer exception handlers (lines 491-515): `HTTPException` is
re-raised as-is; a 401 `HTTPStatusError` becomes the re-authorization
401; other `HTTPStatusError`s pass their status through; anything else
becomes a 500. -/
def handleOuter (shortName : String) (r : Except Exc BrowseResponse) :
    Except HttpError BrowseResponse :=
  match r with
  | .ok p => .ok p
  | .error (.httpExc s d) => .error ⟨s, d⟩
  | .error (.upstream (.httpStatus 401 _)) =>
    .error ⟨401, shortName ++ " authentication failed. Your access token has expired. " ++
                 "Please disconnect and reconnect your account in the settings."⟩
  | .error (.upstream (.httpStatus c m)) =>
    .error ⟨c, "Failed to browse files: " ++ m⟩
  | .error (.upstream (.other m)) =>
    .error ⟨500, "Failed to browse files: " ++ m⟩

/-- Models `browse_files` from the point where the source instance exists:
provider dispatch (the endpoint rejects other providers with a 400
before any upstream call), level resolution, and the outer exception
mapping. -/
def browse_files (env : BrowseEnv) (shortName : String)
    (siteId driveId folderId : Option String) : Except HttpError BrowseResponse :=
  if shortName = "sharepoint" then
    handleOuter shortName
      (if ¬ truthy siteId then .ok (browseNoSite env)
       else if ¬ truthy driveId then browseDrives env (siteId.getD "")
       else browseSPFolder env (driveId.getD "") folderId)
  else if shortName = "onedrive" then
    handleOuter shortName (browseOneDrive env driveId folderId)
  else
    .error ⟨400, "File browsing is currently only supported for SharePoint and OneDrive. Got: " ++ shortName⟩

/-- First-occurrence-wins deduplication by site id, as the spec words it:
"Deduplication key: upstream site identifier.  First occurrence wins;
later duplicate entries are discarded."  `seen` is the set of already
claimed ids; entries with a falsy id are never kept.  Used to compare the
code's incremental merging against the spec's description. -/
def firstWins (seen : List String) : List SiteRec → List SiteRec
  | [] => []
  | s :: rest =>
    if s.id ≠ "" ∧ s.id ∉ seen then s :: firstWins (s.id :: seen) rest
    else firstWins seen rest

/-- The ids of a site list. -/
def idsOf (l : List SiteRec) : List String := l.map (fun s => s.id)

/-- The group-site candidates the endpoint actually fetches and would
append: the first 20 groups, each resolved through `groupSite`, failures
skipped, rendered as the synthesized dicts. -/
def groupCands (env : BrowseEnv) (gs : List GroupRec) : List SiteRec :=
  (gs.take 20).filterMap
    (fun g =>
      match env.groupSite g.id with
      | .ok s => some (mkGroupSiteRec g s)
      | .error _ => none)

/-- The sequence of site dicts the aggregation encounters after the root
entry, in encounter order: the first search page, then the followed
sites, then the resolved group sites, then the continuation pages that
were actually fetched. -/
def encounterSeq (env : BrowseEnv) : List SiteRec :=
  match firstPage env with
  | .error _ => []
  | .ok p =>
    p.value ++ followedPart env ++ groupCands env (groupsPart env) ++ (contRes env p).fetched

end Browser

namespace Sample

open Upload Browser

/-- A per-item environment in which every upstream step succeeds. -/
def itemOK : ItemEnv :=
  { metadata := .ok ⟨some "doc.txt", true⟩
    downloadUrl := .ok (some "https://graph.example/dl")
    buildEntity := .ok (some ⟨"doc.txt", "ENT1"⟩)
    download := .ok (some "/tmp/doc.txt")
    bulkInsert := .ok () }

/-- A per-item environment whose metadata resolves to a folder. -/
def itemFolder : ItemEnv :=
  { itemOK with metadata := .ok ⟨some "FolderA", false⟩ }

/-- Transfer environment where every id succeeds. -/
def uenvOK : String → ItemEnv := fun _ => itemOK

/-- Transfer environment where only id `"b"` fails metadata resolution. -/
def uenvMid : String → ItemEnv := fun fid =>
  if fid = "b" then { itemOK with metadata := .error "metadata boom" } else itemOK

/-- Transfer environment for the two-id end-to-end scenario:
`"a"` resolves to a folder, `"b"` to a downloadable file. -/
def uenvAB : String → ItemEnv := fun fid =>
  if fid = "a" then itemFolder else itemOK

/-- A destination configuration. -/
def cfg0 : S3Cfg := ⟨"airweave", "airweave-outbound/", "demo-collection"⟩

/-- Shorthand for a site dict with a truthy id. -/
def mkSite (i n : String) : SiteRec := ⟨i, some n, some n⟩

/-- A browse environment in which every source succeeds, the search page
has one continuation page, and the listed drive has one file, one folder
and one marker-less child. -/
def benv : BrowseEnv :=
  { rootSite := .ok ⟨"R", some "Root", some "root"⟩
    searchSites := .ok ⟨[mkSite "S1" "One", mkSite "R" "RootDup", mkSite "S1" "OneDup"], some "next1"⟩
    plainSites := .error (.other "search required")
    followedSites := .ok [mkSite "S2" "Two", mkSite "S1" "DupAgain"]
    groups := .ok [⟨"G1", some "TeamOne"⟩]
    groupSite := fun g =>
      if g = "G1" then .ok ⟨"S3", some "TeamSite", some "teamsite"⟩ else .error (.other "no site")
    nextPage := fun u =>
      if u = "next1" then .ok ⟨[mkSite "S4" "Four", mkSite "S2" "TwoDup"], none⟩
      else .error (.other "bad cursor")
    drives := fun _ => .ok [⟨"D1", some "Documents"⟩]
    siteInfo := fun _ => .ok ⟨"S1", some "One", some "one"⟩
    listDriveItems := fun _ _ =>
      .ok [⟨"I1", some "f.txt", false, true, some 10, some "2024-01-01", some "text/plain"⟩,
           ⟨"I2", some "sub", true, false, none, none, none⟩]
    meDrive := .ok ⟨"OD", some "OneDrive"⟩ }

/-- Browse environment in which the folder-content listing raises a 401
`HTTPStatusError`. -/
def benv401 : BrowseEnv :=
  { benv with listDriveItems := fun _ _ => .error (.httpStatus 401 "401 Unauthorized") }

/-- Browse environment whose drive listing contains a single child with
neither a `"file"` nor a `"folder"` facet (e.g. a OneNote package). -/
def benvPkg : BrowseEnv :=
  { benv with listDriveItems := fun _ _ => .ok [⟨"I3", some "notebook", false, false, none, none, none⟩] }

/-- Browse environment in which the drive listing raises 401. -/
def benvDrives401 : BrowseEnv :=
  { benv with drives := fun _ => .error (.httpStatus 401 "401 Unauthorized") }

/-- Browse environment in which the OneDrive default-drive lookup
raises 401. -/
def benvMe401 : BrowseEnv :=
  { benv with meDrive := .error (.httpStatus 401 "401 Unauthorized") }

/-- Browse environment in which the OneDrive default-drive lookup
succeeds but carries no drive id. -/
def benvNoDrive : BrowseEnv :=
  { benv with meDrive := .ok ⟨"", none⟩ }

/-- Browse environment in which every site source raises 401. -/
def benvSites401 : BrowseEnv :=
  { benv with
    rootSite := .error (.httpStatus 401 "401 Unauthorized")
    searchSites := .error (.httpStatus 401 "401 Unauthorized")
    plainSites := .error (.httpStatus 401 "401 Unauthorized")
    followedSites := .error (.httpStatus 401 "401 Unauthorized")
    groups := .error (.httpStatus 401 "401 Unauthorized") }

/-- Browse environment where only the root site succeeds and the all-sites
search throws (both variants). -/
def benvRootOnly : BrowseEnv :=
  { benv with
    searchSites := .error (.other "Sites.Read.All missing")
    plainSites := .error (.other "Sites.Read.All missing") }

end Sample

section UploadProofs

open Upload

theorem processItem_file_id (env : String → ItemEnv) (cfg : S3Cfg) (fid : String) :
    (processItem env cfg fid).file_id = fid := by
  unfold processItem
  (repeat' split) <;> rfl

theorem processItem_status (env : String → ItemEnv) (cfg : S3Cfg) (fid : String) :
    (processItem env cfg fid).status = "success" ∨
    (processItem env cfg fid).status = "failed" ∨
    (processItem env cfg fid).status = "skipped" := by
  unfold processItem
  (repeat' split) <;> simp

theorem processItem_env_eq (env env' : String → ItemEnv) (cfg : S3Cfg) (fid : String)
    (h : env fid = env' fid) :
    processItem env cfg fid = processItem env' cfg fid := by
  unfold processItem
  rw [h]

theorem loop_results (env : String → ItemEnv) (cfg : S3Cfg) (ids : List String) :
    ∀ st : LoopState,
      (ids.foldl (stepItem env cfg) st).1 = st.1 ++ ids.map (processItem env cfg) := by
  induction ids with
  | nil => intro st; simp
  | cons x xs ih =>
    intro st
    simp only [List.foldl_cons, List.map_cons]
    rw [ih]
    simp [stepItem]

theorem results_eq_map (env : String → ItemEnv) (cfg : S3Cfg) (ids : List String) :
    (upload_selected_files env cfg ids).results = ids.map (processItem env cfg) := by
  have h := loop_results env cfg ids ([], 0, 0, 0)
  simpa [upload_selected_files] using h

theorem stepItem_sum (env : String → ItemEnv) (cfg : S3Cfg) (st : LoopState) (fid : String) :
    (stepItem env cfg st fid).2.1 + (stepItem env cfg st fid).2.2.1 +
      (stepItem env cfg st fid).2.2.2 = st.2.1 + st.2.2.1 + st.2.2.2 + 1 := by
  rcases processItem_status env cfg fid with h | h | h <;>
    simp [stepItem, h] <;> omega

theorem loop_sum (env : String → ItemEnv) (cfg : S3Cfg) (ids : List String) :
    ∀ st : LoopState,
      (ids.foldl (stepItem env cfg) st).2.1 + (ids.foldl (stepItem env cfg) st).2.2.1 +
        (ids.foldl (stepItem env cfg) st).2.2.2 =
      st.2.1 + st.2.2.1 + st.2.2.2 + ids.length := by
  induction ids with
  | nil => intro st; simp
  | cons x xs ih =>
    intro st
    simp only [List.foldl_cons, List.length_cons]
    rw [ih]
    rw [stepItem_sum]
    omega

/-- C1: for every transfer request whose per-item loop starts, the report
satisfies `totalFiles == len(fileIds) == successful+failed+skipped ==
len(outcomes)`, and the i-th outcome's `fileId` equals the i-th input id
(one outcome per input position, in input order, duplicates included). -/
theorem C1_batch_report_invariant (env : String → ItemEnv) (cfg : S3Cfg)
    (fileIds : List String) :
    (upload_selected_files env cfg fileIds).total_files = fileIds.length ∧
    (upload_selected_files env cfg fileIds).successful +
      (upload_selected_files env cfg fileIds).failed +
      (upload_selected_files env cfg fileIds).skipped = fileIds.length ∧
    (upload_selected_files env cfg fileIds).results.length = fileIds.length ∧
    (upload_selected_files env cfg fileIds).results.map (fun r => r.file_id) = fileIds := by
  have hres := results_eq_map env cfg fileIds
  refine ⟨rfl, ?_, ?_, ?_⟩
  · have := loop_sum env cfg fileIds ([], 0, 0, 0)
    simpa [upload_selected_files] using this
  · rw [hres]; simp
  · rw [hres, List.map_map]
    have : (fun r => FileUploadResult.file_id r) ∘ processItem env cfg = fun fid => fid := by
      funext fid
      exact processItem_file_id env cfg fid
    rw [this, List.map_id']

theorem processItem_raises (env : String → ItemEnv) (cfg : S3Cfg) (fid m : String)
    (h : raisesWith (env fid) m) :
    processItem env cfg fid =
      { file_id := fid, file_name := "Unknown", status := "failed", error := some m } := by
  unfold processItem
  rcases h with hm | ⟨fd, hfd, hisf, h2⟩
  · rw [hm]
  · rw [hfd]
    rcases h2 with hdl | ⟨du, hdu, htr, h3⟩
    · simp [hisf, hdl]
    · rcases h3 with hbe | ⟨ent, hent, h4⟩
      · simp [hisf, hdu, htr, hbe]
      · rcases h4 with hdw | ⟨lp, hlp, hltr, hbi⟩
        · simp [hisf, hdu, htr, hent, hdw]
        · simp [hisf, hdu, htr, hent, hlp, hltr, hbi]

/-- C2: an uncaught exception at any per-item step degrades that one item
to a `failed` outcome carrying the exception text, and the remaining
items' outcomes are exactly what they are under any environment that
agrees with this one outside the failing id — in particular under one
where that id would have succeeded. -/
theorem C2_per_item_isolation (env env' : String → ItemEnv) (cfg : S3Cfg)
    (a b c fid m : String) :
    (raisesWith (env fid) m →
      processItem env cfg fid =
        { file_id := fid, file_name := "Unknown", status := "failed", error := some m }) ∧
    (raisesWith (env' b) m → env a = env' a → env c = env' c →
      (upload_selected_files env' cfg [a, b, c]).results =
        [processItem env cfg a,
         { file_id := b, file_name := "Unknown", status := "failed", error := some m },
         processItem env cfg c]) := by
  constructor
  · exact processItem_raises env cfg fid m
  · intro hb ha hc
    rw [results_eq_map env' cfg [a, b, c]]
    simp only [List.map_cons, List.map_nil]
    rw [processItem_raises env' cfg b m hb,
      ← processItem_env_eq env env' cfg a ha,
      ← processItem_env_eq env env' cfg c hc]

/-- C2 witness: with three ids where only `"b"` fails metadata
resolution, ids `"a"` and `"c"` come out as under the all-success
environment. -/
theorem C2_per_item_isolation_witness :
    raisesWith (Sample.uenvMid "b") "metadata boom" ∧
    (upload_selected_files Sample.uenvMid Sample.cfg0 ["a", "b", "c"]).results =
      [processItem Sample.uenvOK Sample.cfg0 "a",
       { file_id := "b", file_name := "Unknown", status := "failed",
         error := some "metadata boom" },
       processItem Sample.uenvOK Sample.cfg0 "c"] := by
  have hb : raisesWith (Sample.uenvMid "b") "metadata boom" := Or.inl (by decide)
  exact ⟨hb,
    (C2_per_item_isolation Sample.uenvOK Sample.uenvMid Sample.cfg0 "a" "b" "c" "b"
      "metadata boom").2 hb (by decide) (by decide)⟩

/-- C8 counterexample: in the folder/file two-id scenario the skipped
outcome's error text is "Not a file (may be a folder)" (capital N), not
the claim's "not a file (may be a folder)". -/
theorem C8_counterexample :
    (upload_selected_files Sample.uenvAB Sample.cfg0 ["a", "b"]).results.map
        (fun r => r.error) =
      [some "Not a file (may be a folder)", none] ∧
    ("Not a file (may be a folder)" : String) ≠ "not a file (may be a folder)" := by
  exact ⟨rfl, by decide⟩

/-- C8 (amended): for a transfer request with fileIds ["a","b"] where "a"
resolves to a folder and "b" to a file with a valid download URL and
successful download, the report is total 2, successful 1, skipped 1,
failed 0; outcome 0 is skipped with error "Not a file (may be a folder)"
(capital N, as the code spells it) and outcome 1 is success with the
destination path "s3://<bucket>/<prefix>collections/<collection>/blobs/<recordId>". -/
theorem C8_end_to_end (env : String → ItemEnv) (cfg : S3Cfg)
    (fdA fdB : FileMeta) (ent : FileEntity) (du lp : String)
    (hA : (env "a").metadata = .ok fdA) (hAf : fdA.isFile = false)
    (hB : (env "b").metadata = .ok fdB) (hBf : fdB.isFile = true)
    (hBu : (env "b").downloadUrl = .ok (some du)) (hdu : du ≠ "")
    (hBe : (env "b").buildEntity = .ok (some ent))
    (hBd : (env "b").download = .ok (some lp)) (hlp : lp ≠ "")
    (hBi : (env "b").bulkInsert = .ok ()) :
    upload_selected_files env cfg ["a", "b"] =
      { total_files := 2, successful := 1, failed := 0, skipped := 1,
        results := [{ file_id := "a", file_name := fdA.name.getD "Unknown",
                      status := "skipped", error := some "Not a file (may be a folder)" },
                    { file_id := "b", file_name := ent.name, status := "success",
                      s3_path := some (s3PathOf cfg ent) }] } ∧
    s3PathOf cfg ent =
      "s3://" ++ cfg.bucketName ++ "/" ++ cfg.bucketPfx ++ "collections/" ++
        cfg.collectionReadableId ++ "/blobs/" ++ ent.id := by
  have pa : processItem env cfg "a" =
      { file_id := "a", file_name := fdA.name.getD "Unknown", status := "skipped",
        error := some "Not a file (may be a folder)" } := by
    unfold processItem
    rw [hA]
    simp [hAf]
  have pb : processItem env cfg "b" =
      { file_id := "b", file_name := ent.name, status := "success",
        s3_path := some (s3PathOf cfg ent) } := by
    unfold processItem
    rw [hB, hBu, hBe, hBd, hBi]
    simp [hBf, truthy, hdu, hlp]
  refine ⟨?_, rfl⟩
  simp [upload_selected_files, stepItem, pa, pb]

/-- C8 witness: the scenario at a concrete environment. -/
theorem C8_end_to_end_witness :
    upload_selected_files Sample.uenvAB Sample.cfg0 ["a", "b"] =
      { total_files := 2, successful := 1, failed := 0, skipped := 1,
        results := [{ file_id := "a", file_name := "FolderA", status := "skipped",
                      error := some "Not a file (may be a folder)" },
                    { file_id := "b", file_name := "doc.txt", status := "success",
                      s3_path := some
                        "s3://airweave/airweave-outbound/collections/demo-collection/blobs/ENT1" }] } := by
  have h := (C8_end_to_end Sample.uenvAB Sample.cfg0 ⟨some "FolderA", false⟩
    ⟨some "doc.txt", true⟩ ⟨"doc.txt", "ENT1"⟩ "https://graph.example/dl" "/tmp/doc.txt"
    (by decide) rfl (by decide) rfl (by decide) (by decide) (by decide) (by decide)
    (by decide) (by decide)).1
  rw [h]
  decide

end UploadProofs

section BrowserProofs

open Browser

theorem hasId_iff (l : List SiteRec) (i : String) : hasId l i = true ↔ i ∈ idsOf l := by
  simp [hasId, idsOf, List.any_eq_true, List.mem_map]

theorem idsOf_append (a b : List SiteRec) : idsOf (a ++ b) = idsOf a ++ idsOf b := by
  simp [idsOf]

theorem firstWins_congr (S T : List String) (l : List SiteRec)
    (h : ∀ x, x ∈ S ↔ x ∈ T) : firstWins S l = firstWins T l := by
  induction l generalizing S T with
  | nil => rfl
  | cons s rest ih =>
    simp only [firstWins]
    by_cases hS : s.id ≠ "" ∧ s.id ∉ S
    · have hT : s.id ≠ "" ∧ s.id ∉ T := ⟨hS.1, fun ht => hS.2 ((h s.id).mpr ht)⟩
      rw [if_pos hS, if_pos hT]
      congr 1
      exact ih (s.id :: S) (s.id :: T) (fun x => by simp [h x])
    · have hT : ¬(s.id ≠ "" ∧ s.id ∉ T) := by
        intro ht
        exact hS ⟨ht.1, fun hs => ht.2 ((h s.id).mp hs)⟩
      rw [if_neg hS, if_neg hT]
      exact ih S T h

theorem firstWins_sublist (S : List String) (l : List SiteRec) :
    (firstWins S l).Sublist l := by
  induction l generalizing S with
  | nil => simp [firstWins]
  | cons s rest ih =>
    simp only [firstWins]
    split
    · exact (ih (s.id :: S)).cons₂ s
    · exact (ih S).cons s

theorem firstWins_id_fresh (S : List String) (l : List SiteRec) :
    ∀ s ∈ firstWins S l, s.id ∉ S ∧ s.id ≠ "" := by
  induction l generalizing S with
  | nil => simp [firstWins]
  | cons hd rest ih =>
    simp only [firstWins]
    split
    · rename_i hcond
      intro s hs
      rcases List.mem_cons.mp hs with rfl | hs'
      · exact ⟨hcond.2, hcond.1⟩
      · have h := ih (hd.id :: S) s hs'
        exact ⟨fun hS => h.1 (List.mem_cons_of_mem _ hS), h.2⟩
    · exact ih S

theorem firstWins_pairwise (S : List String) (l : List SiteRec) :
    (firstWins S l).Pairwise (fun a b => a.id ≠ b.id) := by
  induction l generalizing S with
  | nil => simp [firstWins]
  | cons hd rest ih =>
    simp only [firstWins]
    split
    · refine List.Pairwise.cons ?_ (ih (hd.id :: S))
      intro b hb he
      have h := firstWins_id_fresh (hd.id :: S) rest b hb
      exact h.1 (by rw [← he]; exact List.mem_cons_self _ _)
    · exact ih S

theorem firstWins_covers (S : List String) (l : List SiteRec) :
    ∀ s ∈ l, s.id ≠ "" → s.id ∈ S ∨ s.id ∈ idsOf (firstWins S l) := by
  induction l generalizing S with
  | nil => simp
  | cons hd rest ih =>
    intro s hs hne
    simp only [firstWins]
    rcases List.mem_cons.mp hs with rfl | hs'
    · by_cases hc : s.id ≠ "" ∧ s.id ∉ S
      · rw [if_pos hc]
        right
        simp [idsOf]
      · left
        rcases Decidable.em (s.id ∈ S) with h | h
        · exact h
        · exact absurd ⟨hne, h⟩ hc
    · by_cases hc : hd.id ≠ "" ∧ hd.id ∉ S
      · rw [if_pos hc]
        rcases ih (hd.id :: S) s hs' hne with h | h
        · rcases List.mem_cons.mp h with he | hS
          · right
            simp [idsOf, he]
          · exact Or.inl hS
        · right
          simp only [idsOf, List.map_cons, List.mem_cons]
          exact Or.inr (by simpa [idsOf] using h)
      · rw [if_neg hc]
        exact ih S s hs' hne

theorem firstWins_absorb (b : List SiteRec) :
    ∀ (S T : List String) (c : List SiteRec),
      (∀ x, x ≠ "" → x ∈ S → x ∈ T) →
      firstWins T (firstWins S b ++ c) = firstWins T (b ++ c) := by
  induction b with
  | nil => intro S T c h; rfl
  | cons s rest ih =>
    intro S T c h
    by_cases hin : s.id ≠ "" ∧ s.id ∉ S
    · rw [show firstWins S (s :: rest) =
          s :: firstWins (s.id :: S) rest from (if_pos hin : _)]
      simp only [List.cons_append, firstWins]
      by_cases hT : s.id ≠ "" ∧ s.id ∉ T
      · rw [if_pos hT, if_pos hT]
        congr 1
        refine ih (s.id :: S) (s.id :: T) c ?_
        intro x hx hmem
        rcases List.mem_cons.mp hmem with rfl | hS
        · exact List.mem_cons_self _ _
        · exact List.mem_cons_of_mem _ (h x hx hS)
      · rw [if_neg hT, if_neg hT]
        refine ih (s.id :: S) T c ?_
        intro x hx hmem
        rcases List.mem_cons.mp hmem with rfl | hS
        · rcases Decidable.em (s.id ∈ T) with h' | h'
          · exact h'
          · exact absurd ⟨hin.1, h'⟩ hT
        · exact h x hx hS
    · rw [show firstWins S (s :: rest) = firstWins S rest from (if_neg hin : _)]
      rw [show (s :: rest) ++ c = s :: (rest ++ c) from rfl]
      have hT : ¬(s.id ≠ "" ∧ s.id ∉ T) := by
        intro ht
        rcases Decidable.em (s.id = "") with he | he
        · exact ht.1 he
        · have hS : s.id ∈ S := by
            rcases Decidable.em (s.id ∈ S) with h' | h'
            · exact h'
            · exact absurd ⟨he, h'⟩ hin
          exact ht.2 (h s.id he hS)
      rw [show firstWins T (s :: (rest ++ c)) = firstWins T (rest ++ c) from (if_neg hT : _)]
      exact ih S T c h

theorem firstWins_mid (a : List SiteRec) :
    ∀ (S S' : List String) (b c : List SiteRec),
      (∀ x, x ≠ "" → x ∈ S' → x ∈ S ∨ x ∈ idsOf a) →
      firstWins S (a ++ (firstWins S' b ++ c)) = firstWins S (a ++ (b ++ c)) := by
  induction a with
  | nil =>
    intro S S' b c h
    simp only [List.nil_append]
    refine firstWins_absorb b S' S c ?_
    intro x hx hmem
    exact (h x hx hmem).resolve_right (by simp [idsOf])
  | cons s a' ih =>
    intro S S' b c h
    simp only [List.cons_append, firstWins]
    by_cases hc : s.id ≠ "" ∧ s.id ∉ S
    · rw [if_pos hc, if_pos hc]
      congr 1
      refine ih (s.id :: S) S' b c ?_
      intro x hx hmem
      rcases h x hx hmem with hS | hA
      · exact Or.inl (List.mem_cons_of_mem _ hS)
      · rcases (by simpa [idsOf] using hA : x = s.id ∨ x ∈ idsOf a') with rfl | hA'
        · exact Or.inl (List.mem_cons_self _ _)
        · exact Or.inr hA'
    · rw [if_neg hc, if_neg hc]
      refine ih S S' b c ?_
      intro x hx hmem
      rcases h x hx hmem with hS | hA
      · exact Or.inl hS
      · rcases (by simpa [idsOf] using hA : x = s.id ∨ x ∈ idsOf a') with rfl | hA'
        · left
          rcases Decidable.em (s.id ∈ S) with h' | h'
          · exact h'
          · exact absurd ⟨hx, h'⟩ hc
        · exact Or.inr hA'

theorem firstWins_append (x : List SiteRec) :
    ∀ (S : List String) (y : List SiteRec),
      firstWins S (x ++ y) =
        firstWins S x ++ firstWins (idsOf (firstWins S x) ++ S) y := by
  induction x with
  | nil =>
    intro S y
    simp [firstWins, idsOf]
  | cons s x' ih =>
    intro S y
    simp only [List.cons_append, firstWins, List.append_eq]
    by_cases hc : s.id ≠ "" ∧ s.id ∉ S
    · rw [if_pos hc, if_pos hc]
      simp only [List.cons_append, idsOf, List.map_cons, List.append_eq]
      congr 1
      rw [ih (s.id :: S) y]
      congr 1
      refine firstWins_congr _ _ y ?_
      intro t
      simp only [List.mem_append, List.mem_cons]
      tauto
    · rw [if_neg hc, if_neg hc]
      exact ih S y

theorem mergeFollowed_eq (fs : List SiteRec) :
    ∀ all : List SiteRec, mergeFollowed all fs = all ++ firstWins (idsOf all) fs := by
  induction fs with
  | nil => intro all; simp [mergeFollowed, firstWins]
  | cons s rest ih =>
    intro all
    simp only [mergeFollowed, List.foldl_cons, firstWins]
    by_cases hc : s.id ≠ "" ∧ s.id ∉ idsOf all
    · have hg : s.id ≠ "" ∧ ¬ hasId all s.id = true :=
        ⟨hc.1, fun hh => hc.2 ((hasId_iff all s.id).mp hh)⟩
      rw [if_pos hg, if_pos hc]
      have h := ih (all ++ [s])
      simp only [mergeFollowed] at h
      rw [h]
      rw [firstWins_congr (idsOf (all ++ [s])) (s.id :: idsOf all) rest
        (fun t => by
          rw [idsOf_append, show idsOf [s] = [s.id] from rfl]
          simp only [List.mem_append, List.mem_cons, List.not_mem_nil, or_false]
          tauto)]
      simp [List.append_assoc]
    · have hg : ¬(s.id ≠ "" ∧ ¬ hasId all s.id = true) := by
        intro hh
        exact hc ⟨hh.1, fun hm => hh.2 ((hasId_iff all s.id).mpr hm)⟩
      rw [if_neg hg, if_neg hc]
      have h := ih all
      simp only [mergeFollowed] at h
      exact h

theorem mergeGroups_eq (env : BrowseEnv) (gs : List GroupRec) (all : List SiteRec) :
    mergeGroups env all gs = all ++ firstWins (idsOf all) (groupCands env gs) := by
  unfold mergeGroups groupCands
  generalize gs.take 20 = l
  induction l generalizing all with
  | nil => simp [firstWins]
  | cons g rest ih =>
    simp only [List.foldl_cons, List.filterMap_cons]
    rcases hg : env.groupSite g.id with e | gsr <;> simp only [hg]
    · exact ih all
    · simp only [firstWins]
      by_cases hc : gsr.id ≠ "" ∧ gsr.id ∉ idsOf all
      · have hb : gsr.id ≠ "" ∧ ¬ hasId all gsr.id = true :=
          ⟨hc.1, fun hh => hc.2 ((hasId_iff all gsr.id).mp hh)⟩
        have hc' : (mkGroupSiteRec g gsr).id ≠ "" ∧ (mkGroupSiteRec g gsr).id ∉ idsOf all := by
          simpa [mkGroupSiteRec] using hc
        rw [if_pos hb, if_pos hc']
        rw [ih (all ++ [mkGroupSiteRec g gsr])]
        rw [firstWins_congr (idsOf (all ++ [mkGroupSiteRec g gsr]))
          ((mkGroupSiteRec g gsr).id :: idsOf all) _
          (fun t => by
            rw [idsOf_append,
              show idsOf [mkGroupSiteRec g gsr] = [(mkGroupSiteRec g gsr).id] from rfl]
            simp only [List.mem_append, List.mem_cons, List.not_mem_nil, or_false]
            tauto)]
        simp [List.append_assoc]
      · have hb : ¬(gsr.id ≠ "" ∧ ¬ hasId all gsr.id = true) := by
          intro hh
          exact hc ⟨hh.1, fun hm => hh.2 ((hasId_iff all gsr.id).mpr hm)⟩
        have hc' : ¬((mkGroupSiteRec g gsr).id ≠ "" ∧ (mkGroupSiteRec g gsr).id ∉ idsOf all) := by
          simpa [mkGroupSiteRec] using hc
        rw [if_neg hb, if_neg hc']
        exact ih all

theorem mergeIntoSitesList_eq (rootId : Option String) (sites : List SiteRec) :
    ∀ acc : List SiteRec, (∀ r, rootId = some r → r ∈ idsOf acc) →
      mergeIntoSitesList rootId acc sites = acc ++ firstWins (idsOf acc) sites := by
  induction sites with
  | nil => intro acc _; simp [mergeIntoSitesList, firstWins]
  | cons s rest ih =>
    intro acc hR
    simp only [mergeIntoSitesList, List.foldl_cons, firstWins]
    by_cases hc : s.id ≠ "" ∧ s.id ∉ idsOf acc
    · have hg : s.id ≠ "" ∧ (∀ r, rootId = some r → s.id ≠ r) ∧ ¬ hasId acc s.id = true := by
        refine ⟨hc.1, ?_, fun hh => hc.2 ((hasId_iff acc s.id).mp hh)⟩
        intro r hr he
        exact hc.2 (he ▸ hR r hr)
      rw [if_pos hg, if_pos hc]
      have h := ih (acc ++ [s]) (fun r hr => by
        rw [idsOf_append]
        exact List.mem_append_left _ (hR r hr))
      simp only [mergeIntoSitesList] at h
      rw [h]
      rw [firstWins_congr (idsOf (acc ++ [s])) (s.id :: idsOf acc) rest
        (fun t => by
          rw [idsOf_append, show idsOf [s] = [s.id] from rfl]
          simp only [List.mem_append, List.mem_cons, List.not_mem_nil, or_false]
          tauto)]
      simp [List.append_assoc]
    · have hg : ¬(s.id ≠ "" ∧ (∀ r, rootId = some r → s.id ≠ r) ∧ ¬ hasId acc s.id = true) := by
        intro hh
        rcases Decidable.em (s.id ∈ idsOf acc) with hm | hm
        · exact hh.2.2 ((hasId_iff acc s.id).mpr hm)
        · exact hc ⟨hh.1, hm⟩
      rw [if_neg hg, if_neg hc]
      have h := ih acc hR
      simp only [mergeIntoSitesList] at h
      exact h

theorem mem_idsOf (x : String) (l : List SiteRec) : x ∈ idsOf l ↔ ∃ s ∈ l, s.id = x := by
  simp [idsOf]

theorem contLoop_sites_eq (env : BrowseEnv) (rootId : Option String) :
    ∀ (budget : Nat) (sl : List SiteRec) (next : Option String),
      (∀ r, rootId = some r → r ∈ idsOf sl) →
      (contLoop env rootId budget sl next).sites =
        sl ++ firstWins (idsOf sl) (contLoop env rootId budget sl next).fetched := by
  intro budget
  induction budget with
  | zero => intro sl next _; simp [contLoop, firstWins]
  | succ b ih =>
    intro sl next hR
    match next with
    | none => simp [contLoop, firstWins]
    | some url =>
      simp only [contLoop]
      by_cases hguard : url = "" ∨ ¬ sl.length < 200
      · rw [if_pos hguard]
        simp [firstWins]
      · rw [if_neg hguard]
        rcases hp : env.nextPage url with e | p <;> simp only [hp]
        · simp [firstWins]
        · have hmerge := mergeIntoSitesList_eq rootId p.value sl hR
          have hR' : ∀ r, rootId = some r →
              r ∈ idsOf (mergeIntoSitesList rootId sl p.value) := by
            intro r hr
            rw [hmerge, idsOf_append]
            exact List.mem_append_left _ (hR r hr)
          have hrec := ih (mergeIntoSitesList rootId sl p.value) p.nextLink hR'
          rw [hrec, hmerge]
          rw [firstWins_append p.value (idsOf sl)
            ((contLoop env rootId b (sl ++ firstWins (idsOf sl) p.value) p.nextLink).fetched)]
          rw [idsOf_append]
          rw [firstWins_congr
            (idsOf sl ++ idsOf (firstWins (idsOf sl) p.value))
            (idsOf (firstWins (idsOf sl) p.value) ++ idsOf sl) _
            (fun t => by simp only [List.mem_append]; tauto)]
          simp [List.append_assoc]

theorem rootIdOf_mem (env : BrowseEnv) :
    ∀ r, rootIdOf env = some r → r ∈ idsOf (rootPart env) := by
  intro r hr
  unfold rootIdOf at hr
  rcases h : rootPart env with _ | ⟨x, xs⟩ <;> rw [h] at hr
  · simp at hr
  · simp only [List.head?_cons] at hr
    have hx : x.id = r := by simpa using hr
    simp [idsOf, hx]

/-- The code's incremental site aggregation equals the spec's
first-occurrence-wins deduplication of the encounter sequence, seeded
with the root entry. -/
theorem sitesListOf_eq (env : BrowseEnv) :
    sitesListOf env =
      rootPart env ++ firstWins (idsOf (rootPart env)) (encounterSeq env) := by
  unfold sitesListOf encounterSeq
  rcases hfp : firstPage env with e | p <;> simp only [hfp]
  · simp [firstWins]
  · have hR0 := rootIdOf_mem env
    have h1 : sitesList1 env p =
        rootPart env ++ firstWins (idsOf (rootPart env)) (allSites2 env p) :=
      mergeIntoSitesList_eq (rootIdOf env) (allSites2 env p) (rootPart env) hR0
    have hR1 : ∀ r, rootIdOf env = some r → r ∈ idsOf (sitesList1 env p) := by
      intro r hr
      rw [h1, idsOf_append]
      exact List.mem_append_left _ (hR0 r hr)
    have hcont := contLoop_sites_eq env (rootIdOf env) 9 (sitesList1 env p) p.nextLink hR1
    rw [show contRes env p =
        contLoop env (rootIdOf env) 9 (sitesList1 env p) p.nextLink from rfl]
    rw [hcont]
    generalize (contLoop env (rootIdOf env) 9 (sitesList1 env p) p.nextLink).fetched = F
    rw [h1]
    rw [idsOf_append]
    rw [firstWins_congr
      (idsOf (rootPart env) ++ idsOf (firstWins (idsOf (rootPart env)) (allSites2 env p)))
      (idsOf (firstWins (idsOf (rootPart env)) (allSites2 env p)) ++ idsOf (rootPart env)) F
      (fun t => by simp only [List.mem_append]; tauto)]
    rw [List.append_assoc]
    rw [← firstWins_append (allSites2 env p) (idsOf (rootPart env)) F]
    congr 1
    have hA1 : allSites1 env p =
        p.value ++ firstWins (idsOf p.value) (followedPart env) :=
      mergeFollowed_eq (followedPart env) p.value
    have hA2 : allSites2 env p =
        allSites1 env p ++
          firstWins (idsOf (allSites1 env p)) (groupCands env (groupsPart env)) :=
      mergeGroups_eq env (groupsPart env) (allSites1 env p)
    rw [hA2, hA1]
    simp only [List.append_assoc]
    have step1 : firstWins (idsOf (rootPart env))
        (p.value ++ (firstWins (idsOf p.value) (followedPart env) ++
          (firstWins (idsOf (p.value ++ firstWins (idsOf p.value) (followedPart env)))
            (groupCands env (groupsPart env)) ++ F))) =
        firstWins (idsOf (rootPart env))
        (p.value ++ (followedPart env ++
          (firstWins (idsOf (p.value ++ firstWins (idsOf p.value) (followedPart env)))
            (groupCands env (groupsPart env)) ++ F))) := by
      refine firstWins_mid p.value (idsOf (rootPart env)) (idsOf p.value)
        (followedPart env) _ ?_
      intro x hx hmem
      exact Or.inr hmem
    have step2 : firstWins (idsOf (rootPart env))
        ((p.value ++ followedPart env) ++
          (firstWins (idsOf (p.value ++ firstWins (idsOf p.value) (followedPart env)))
            (groupCands env (groupsPart env)) ++ F)) =
        firstWins (idsOf (rootPart env))
        ((p.value ++ followedPart env) ++ (groupCands env (groupsPart env) ++ F)) := by
      refine firstWins_mid (p.value ++ followedPart env) (idsOf (rootPart env))
        (idsOf (p.value ++ firstWins (idsOf p.value) (followedPart env)))
        (groupCands env (groupsPart env)) F ?_
      intro x hx hmem
      right
      rw [idsOf_append] at hmem
      rw [idsOf_append, List.mem_append] at *
      rcases hmem with h | h
      · exact Or.inl h
      · right
        rcases (mem_idsOf x _).mp h with ⟨t, ht, rfl⟩
        exact (mem_idsOf t.id _).mpr
          ⟨t, (firstWins_sublist (idsOf p.value) (followedPart env)).subset ht, rfl⟩
    rw [step1]
    have step2' := step2
    simp only [List.append_assoc] at step2'
    rw [step2']

theorem sitesListOf_pairwise (env : BrowseEnv) :
    (sitesListOf env).Pairwise (fun a b => a.id ≠ b.id) := by
  rw [sitesListOf_eq]
  rw [List.pairwise_append]
  refine ⟨?_, firstWins_pairwise _ _, ?_⟩
  · unfold rootPart
    rcases env.rootSite with e | r <;> simp
  · intro a ha b hb
    have hfresh := firstWins_id_fresh (idsOf (rootPart env)) (encounterSeq env) b hb
    intro he
    exact hfresh.1 (he ▸ (mem_idsOf a.id (rootPart env)).mpr ⟨a, ha, rfl⟩)

theorem encounter_covered (env : BrowseEnv) :
    ∀ s ∈ encounterSeq env, s.id ≠ "" → hasId (sitesListOf env) s.id = true := by
  intro s hs hne
  rw [hasId_iff, sitesListOf_eq, idsOf_append, List.mem_append]
  rcases firstWins_covers (idsOf (rootPart env)) (encounterSeq env) s hs hne with h | h
  · exact Or.inl h
  · exact Or.inr h

theorem browse_files_no_site (env : BrowseEnv) (siteId driveId folderId : Option String)
    (h : truthy siteId = false) :
    browse_files env "sharepoint" siteId driveId folderId =
      Except.ok (browseNoSite env) := by
  unfold browse_files
  rw [if_pos rfl, if_pos (by simp [h])]
  rfl

theorem sitesListOf_root_head (env : BrowseEnv) (r : SiteRec)
    (h : env.rootSite = .ok r) :
    (sitesListOf env).head? = some (mkRootRec r) := by
  rw [sitesListOf_eq]
  have hr : rootPart env = [mkRootRec r] := by unfold rootPart; rw [h]
  rw [hr]
  rfl

/-- C3: the failure of any subset of the four site-listing sources is
recovered locally — a no-`siteId` SharePoint browse never returns an
error (so "fails only if the root lookup fails and nothing else
succeeded" holds vacuously), the returned page starts with the root site
whenever the root lookup succeeded, and every truthy-id site of the
succeeded search page and followed-sites source appears in the result. -/
theorem C3_aggregator_resilience (env : BrowseEnv) (siteId driveId folderId : Option String)
    (h : truthy siteId = false) :
    browse_files env "sharepoint" siteId driveId folderId =
      Except.ok (browseNoSite env) ∧
    (∀ r, env.rootSite = .ok r →
      (browseNoSite env).folders.head? = some (siteFolder (mkRootRec r))) ∧
    (∀ p, firstPage env = .ok p → ∀ s ∈ p.value, s.id ≠ "" →
      hasId (sitesListOf env) s.id = true) ∧
    (∀ p fs, firstPage env = .ok p → env.followedSites = .ok fs →
      ∀ s ∈ fs, s.id ≠ "" → hasId (sitesListOf env) s.id = true) := by
  refine ⟨browse_files_no_site env siteId driveId folderId h, ?_, ?_, ?_⟩
  · intro r hr
    show ((sitesListOf env).map siteFolder).head? = _
    rw [List.head?_map, sitesListOf_root_head env r hr]
    rfl
  · intro p hp s hs hne
    refine encounter_covered env s ?_ hne
    unfold encounterSeq
    rw [hp]
    simp only [List.append_assoc, List.mem_append]
    exact Or.inl hs
  · intro p fs hp hfs s hs hne
    refine encounter_covered env s ?_ hne
    unfold encounterSeq
    rw [hp]
    have : followedPart env = fs := by unfold followedPart; rw [hfs]
    simp only [List.append_assoc, List.mem_append]
    exact Or.inr (Or.inl (this ▸ hs))

/-- C3 witness: the all-sites search throws in both variants, the root
lookup succeeds; the page is non-error and contains the root site first. -/
theorem C3_aggregator_resilience_witness :
    truthy (none : Option String) = false ∧
    browse_files Sample.benvRootOnly "sharepoint" none none none =
      Except.ok (browseNoSite Sample.benvRootOnly) ∧
    (browseNoSite Sample.benvRootOnly).folders.head? =
      some (siteFolder (mkRootRec ⟨"R", some "Root", some "root"⟩)) := by
  have h := C3_aggregator_resilience Sample.benvRootOnly none none none rfl
  exact ⟨rfl, h.1, h.2.1 ⟨"R", some "Root", some "root"⟩ rfl⟩

/-- C4: a no-`siteId` SharePoint browse returns one page with zero
files, `current_path = "/sites"`, and the aggregated sites rendered as
synthetic folder entries (the root site included when its lookup
succeeded). -/
theorem C4_no_site_level (env : BrowseEnv) (siteId driveId folderId : Option String)
    (h : truthy siteId = false) :
    browse_files env "sharepoint" siteId driveId folderId =
      Except.ok { files := [], folders := (sitesListOf env).map siteFolder,
                  current_path := some "/sites", parent_path := none } ∧
    (∀ r, env.rootSite = .ok r →
      siteFolder (mkRootRec r) ∈ (sitesListOf env).map siteFolder) := by
  refine ⟨browse_files_no_site env siteId driveId folderId h, ?_⟩
  intro r hr
  have hh := sitesListOf_root_head env r hr
  rcases hl : sitesListOf env with _ | ⟨x, xs⟩ <;> rw [hl] at hh
  · simp at hh
  · simp only [List.head?_cons, Option.some.injEq] at hh
    rw [hh]
    exact List.mem_map_of_mem siteFolder (List.mem_cons_self _ _)

/-- C4 witness: concrete browse with every source succeeding. -/
theorem C4_no_site_level_witness :
    truthy (none : Option String) = false ∧
    browse_files Sample.benv "sharepoint" none none none =
      Except.ok { files := [], folders := (sitesListOf Sample.benv).map siteFolder,
                  current_path := some "/sites", parent_path := none } := by
  exact ⟨rfl, (C4_no_site_level Sample.benv none none none rfl).1⟩

/-- C5: the merged site list is exactly the spec's first-occurrence-wins
deduplication (by upstream site id) of the encounter sequence, seeded
with the root entry; so ids are pairwise distinct, first-seen order is
preserved, and every truthy id encountered by a succeeded source occurs. -/
theorem C5_dedup_first_seen (env : BrowseEnv) :
    sitesListOf env =
      rootPart env ++ firstWins (idsOf (rootPart env)) (encounterSeq env) ∧
    (sitesListOf env).Pairwise (fun a b => a.id ≠ b.id) ∧
    (∀ s ∈ encounterSeq env, s.id ≠ "" → hasId (sitesListOf env) s.id = true) := by
  exact ⟨sitesListOf_eq env, sitesListOf_pairwise env, encounter_covered env⟩

/-- C5 witness: at the sample environment (overlapping sources), a site
encountered twice occurs once. -/
theorem C5_dedup_first_seen_witness :
    Sample.mkSite "S1" "DupAgain" ∈ encounterSeq Sample.benv ∧
    (Sample.mkSite "S1" "DupAgain").id ≠ "" ∧
    hasId (sitesListOf Sample.benv) "S1" = true ∧
    sitesListOf Sample.benv =
      rootPart Sample.benv ++
        firstWins (idsOf (rootPart Sample.benv)) (encounterSeq Sample.benv) := by
  refine ⟨by decide, by decide, ?_, (C5_dedup_first_seen Sample.benv).1⟩
  exact (C5_dedup_first_seen Sample.benv).2.2 (Sample.mkSite "S1" "DupAgain")
    (by decide) (by decide)

theorem contLoop_fetch_le (env : BrowseEnv) (rootId : Option String) :
    ∀ (budget : Nat) (sl : List SiteRec) (next : Option String),
      (contLoop env rootId budget sl next).fetchCount ≤ budget := by
  intro budget
  induction budget with
  | zero => intro sl next; simp [contLoop]
  | succ b ih =>
    intro sl next
    match next with
    | none => simp [contLoop]
    | some url =>
      simp only [contLoop]
      split
      · simp
      · rcases hp : env.nextPage url with e | p <;> simp only [hp]
        · omega
        · have := ih (mergeIntoSitesList rootId sl p.value) p.nextLink
          omega

theorem contLoop_stops_at_cap (env : BrowseEnv) (rootId : Option String)
    (budget : Nat) (sl : List SiteRec) (next : Option String)
    (h : 200 ≤ sl.length) :
    (contLoop env rootId budget sl next).fetchCount = 0 := by
  match budget, next with
  | 0, _ => simp [contLoop]
  | _ + 1, none => simp [contLoop]
  | b + 1, some url =>
    simp only [contLoop]
    rw [if_pos (Or.inr (by omega))]

/-- C9: the continuation loop performs at most 9 continuation fetches
(so at most 10 site pages in total, counting the initial search page),
performs none once the accumulated list has reached 200 entries, and the
group-site resolution touches only the first 20 groups, so at most 20
candidate sites can arise from groups. -/
theorem C9_bounded_enumeration (env : BrowseEnv) (rootId : Option String)
    (sl all : List SiteRec) (next : Option String) (gs : List GroupRec) :
    (contLoop env rootId 9 sl next).fetchCount ≤ 9 ∧
    (∀ budget, 200 ≤ sl.length → (contLoop env rootId budget sl next).fetchCount = 0) ∧
    (groupCands env gs).length ≤ 20 ∧
    mergeGroups env all gs = mergeGroups env all (gs.take 20) := by
  refine ⟨contLoop_fetch_le env rootId 9 sl next,
    fun budget h => contLoop_stops_at_cap env rootId budget sl next h, ?_, ?_⟩
  · unfold groupCands
    calc ((gs.take 20).filterMap _).length ≤ (gs.take 20).length :=
          List.length_filterMap_le _ _
      _ ≤ 20 := by rw [List.length_take]; omega
  · unfold mergeGroups
    rw [List.take_take]
    simp

/-- C9 witness: with 200 accumulated sites no continuation fetch happens,
and the fetch count is within budget. -/
theorem C9_bounded_enumeration_witness :
    200 ≤ (List.replicate 200 (Sample.mkSite "X" "X")).length ∧
    (contLoop Sample.benv (some "R") 9 (List.replicate 200 (Sample.mkSite "X" "X"))
        (some "next1")).fetchCount = 0 ∧
    (contLoop Sample.benv (some "R") 9 [] (some "next1")).fetchCount ≤ 9 := by
  have hlen : (List.replicate 200 (Sample.mkSite "X" "X")).length = 200 :=
    List.length_replicate 200 _
  refine ⟨le_of_eq hlen.symm, ?_, ?_⟩
  · exact (C9_bounded_enumeration Sample.benv (some "R")
      (List.replicate 200 (Sample.mkSite "X" "X")) [] (some "next1") []).2.1 9
      (le_of_eq hlen.symm)
  · exact (C9_bounded_enumeration Sample.benv (some "R") [] [] (some "next1") []).1

/-- C6 counterexample: a 401 `HTTPStatusError` raised while listing
folder contents of a SharePoint drive is caught by the inner
`try/except` of level 3 and surfaces as a generic HTTP 500
"Failed to list files in folder", not as the distinct 401 AuthExpired
error the claim requires at every level. -/
theorem C6_counterexample :
    Sample.benv401.listDriveItems "D1" none =
      .error (.httpStatus 401 "401 Unauthorized") ∧
    browse_files Sample.benv401 "sharepoint" (some "S1") (some "D1") none =
      Except.error ⟨500, "Failed to list files in folder: 401 Unauthorized"⟩ ∧
    (500 : Nat) ≠ 401 := by
  exact ⟨rfl, rfl, by decide⟩

/-- C6 (amended): a 401-equivalent upstream response maps to the
distinct AuthExpired error (HTTP 401 with a re-authorization message)
during SharePoint drive listing, during the OneDrive default-drive
lookup, and during OneDrive item listing; but a 401 raised during
SharePoint folder-content listing is wrapped as a generic 500
"Failed to list files in folder" error, and a 401 during site listing
does not fail the browse call at all — the page is still returned. -/
theorem C6_auth_mapping (env : BrowseEnv) (s d f : Option String) (m : String) :
    (truthy s = true → truthy d = false →
      env.drives (s.getD "") = .error (.httpStatus 401 m) →
      browse_files env "sharepoint" s d f =
        Except.error ⟨401, "sharepoint authentication failed. Your access token has " ++
          "expired. Please disconnect and reconnect your account in the settings."⟩) ∧
    (truthy s = true → truthy d = true →
      env.listDriveItems (d.getD "") f = .error (.httpStatus 401 m) →
      browse_files env "sharepoint" s d f =
        Except.error ⟨500, "Failed to list files in folder: " ++ m⟩) ∧
    (truthy d = false → env.meDrive = .error (.httpStatus 401 m) →
      browse_files env "onedrive" s d f =
        Except.error ⟨401, "OneDrive authentication failed. Your access token has " ++
          "expired. Please disconnect and reconnect your OneDrive account in the settings."⟩) ∧
    (truthy d = true →
      env.listDriveItems (d.getD "") f = .error (.httpStatus 401 m) →
      browse_files env "onedrive" s d f =
        Except.error ⟨401, "onedrive authentication failed. Your access token has " ++
          "expired. Please disconnect and reconnect your account in the settings."⟩) ∧
    (truthy s = false →
      browse_files env "sharepoint" s d f = Except.ok (browseNoSite env)) := by
  refine ⟨?_, ?_, ?_, ?_, browse_files_no_site env s d f⟩
  · intro hs hdf hdrv
    unfold browse_files
    rw [if_pos rfl, if_neg (by simp [hs]), if_pos (by simp [hdf])]
    unfold browseDrives
    rw [hdrv]
    unfold handleOuter
    simp
  · intro hs hdt hl
    unfold browse_files
    rw [if_pos rfl, if_neg (by simp [hs]), if_neg (by simp [hdt])]
    unfold browseSPFolder
    rw [hl]
    rfl
  · intro hdf hme
    unfold browse_files browseOneDrive
    rw [if_neg (show ¬ ("onedrive" = "sharepoint") by decide), if_pos rfl]
    simp [hdf, hme, handleOuter]
  · intro hdt hl
    unfold browse_files browseOneDrive
    rw [if_neg (show ¬ ("onedrive" = "sharepoint") by decide), if_pos rfl]
    simp [hdt, hl, handleOuter]

/-- C6 witness: the drive-listing 401 at a concrete environment maps to
the 401 re-authorization error. -/
theorem C6_auth_mapping_witness :
    truthy (some "S1") = true ∧ truthy (none : Option String) = false ∧
    Sample.benvDrives401.drives "S1" = .error (.httpStatus 401 "401 Unauthorized") ∧
    browse_files Sample.benvDrives401 "sharepoint" (some "S1") none none =
      Except.error ⟨401, "sharepoint authentication failed. Your access token has " ++
        "expired. Please disconnect and reconnect your account in the settings."⟩ := by
  refine ⟨by decide, rfl, rfl, ?_⟩
  exact (C6_auth_mapping Sample.benvDrives401 (some "S1") none none
    "401 Unauthorized").1 (by decide) rfl rfl

theorem classify_aux (driveId : String) (items : List DriveItem) :
    ∀ (fs : List FileItem) (ds : List FolderItem),
      items.foldl
        (fun acc it =>
          if it.hasFolder then (acc.1, acc.2 ++ [folderEntry driveId it])
          else if it.hasFile then (acc.1 ++ [fileEntry driveId it], acc.2)
          else acc)
        (fs, ds) =
      (fs ++ (items.filter (fun i => !i.hasFolder && i.hasFile)).map (fileEntry driveId),
       ds ++ (items.filter (fun i => i.hasFolder)).map (folderEntry driveId)) := by
  induction items with
  | nil => intro fs ds; simp
  | cons it rest ih =>
    intro fs ds
    rcases hF : it.hasFolder <;> rcases hf : it.hasFile <;>
      simp [List.foldl_cons, List.filter_cons, hF, hf, ih, List.append_assoc]

theorem classifyItems_eq (driveId : String) (items : List DriveItem) :
    classifyItems driveId items =
      ((items.filter (fun i => !i.hasFolder && i.hasFile)).map (fileEntry driveId),
       (items.filter (fun i => i.hasFolder)).map (folderEntry driveId)) := by
  unfold classifyItems
  have h := classify_aux driveId items [] []
  simpa using h

theorem classify_count (items : List DriveItem) :
    (items.filter (fun i => !i.hasFolder && i.hasFile)).length +
        (items.filter (fun i => i.hasFolder)).length =
      (items.filter (fun i => i.hasFolder || i.hasFile)).length := by
  induction items with
  | nil => rfl
  | cons it rest ih =>
    rcases hF : it.hasFolder <;> rcases hf : it.hasFile <;>
      simp [List.filter_cons, hF, hf] <;> omega

/-- C7 counterexample: an upstream child with neither a `"file"` nor a
`"folder"` facet (e.g. a OneNote package) is silently dropped — it
appears in neither the files nor the folders list, so not every child is
classified as exactly one of File or Folder. -/
theorem C7_counterexample :
    Sample.benvPkg.listDriveItems "D1" none =
      .ok [⟨"I3", some "notebook", false, false, none, none, none⟩] ∧
    browse_files Sample.benvPkg "sharepoint" (some "S1") (some "D1") none =
      Except.ok { files := [], folders := [], current_path := some "/drives/D1",
                  parent_path := none } :=
  ⟨rfl, rfl⟩

/-- C7 (amended): at the folder-content level, every upstream child with
a folder facet appears (only) in `folders`, every child with a file
facet and no folder facet appears (only) in `files`, a child with both
facets is classified as a folder only, and a child with neither facet is
dropped from both lists — so no child ever appears in both lists, and
`len(files)+len(folders)` counts exactly the children carrying at least
one facet. -/
theorem C7_classification (env : BrowseEnv) (s d f : Option String)
    (items : List DriveItem)
    (hs : truthy s = true) (hdt : truthy d = true)
    (hl : env.listDriveItems (d.getD "") f = .ok items) :
    browse_files env "sharepoint" s d f =
      Except.ok { files := (items.filter (fun i => !i.hasFolder && i.hasFile)).map
                    (fileEntry (d.getD "")),
                  folders := (items.filter (fun i => i.hasFolder)).map
                    (folderEntry (d.getD "")),
                  current_path := some (drivePath (d.getD "") f),
                  parent_path := none } ∧
    (items.filter (fun i => !i.hasFolder && i.hasFile)).length +
        (items.filter (fun i => i.hasFolder)).length =
      (items.filter (fun i => i.hasFolder || i.hasFile)).length := by
  constructor
  · unfold browse_files
    rw [if_pos rfl, if_neg (by simp [hs]), if_neg (by simp [hdt])]
    unfold browseSPFolder
    rw [hl]
    unfold handleOuter
    simp [classifyItems_eq]
  · exact classify_count items

/-- C7 witness: the sample drive with one file and one folder child. -/
theorem C7_classification_witness :
    truthy (some "S1") = true ∧ truthy (some "D1") = true ∧
    browse_files Sample.benv "sharepoint" (some "S1") (some "D1") none =
      Except.ok { files := [⟨"I1", "f.txt", "/drives/D1/items/I1", some 10,
                            some "2024-01-01", "file", some "text/plain"⟩],
                  folders := [⟨"I2", "sub", "/drives/D1/items/I2", "folder"⟩],
                  current_path := some "/drives/D1", parent_path := none } := by
  refine ⟨by decide, by decide, ?_⟩
  have h := (C7_classification Sample.benv (some "S1") (some "D1") none _
    (by decide) (by decide) rfl).1
  rw [h]
  decide

/-- C10: a OneDrive browse with no `drive_id` resolves the default drive
via `me/drive` and then directly lists its contents — the result equals
the browse with the resolved drive id passed explicitly, with no
intermediate drive-enumeration page — and a default-drive lookup that
succeeds without a drive id fails with 404 "No OneDrive found". -/
theorem C10_onedrive_flow (env : BrowseEnv) (s f : Option String) (dr : DriveRec)
    (h : env.meDrive = .ok dr) :
    (dr.id = "" → browse_files env "onedrive" s none f =
      Except.error ⟨404, "No OneDrive found"⟩) ∧
    (dr.id ≠ "" → browse_files env "onedrive" s none f =
      browse_files env "onedrive" s (some dr.id) f) ∧
    (dr.id ≠ "" → ∀ items, env.listDriveItems dr.id f = .ok items →
      browse_files env "onedrive" s none f =
        Except.ok { files := (classifyItems dr.id items).1,
                    folders := (classifyItems dr.id items).2,
                    current_path := some (drivePath dr.id f),
                    parent_path := none }) := by
  refine ⟨?_, ?_, ?_⟩
  · intro hid
    unfold browse_files browseOneDrive
    rw [if_neg (show ¬("onedrive" = "sharepoint") by decide), if_pos rfl]
    simp [h, hid, truthy, handleOuter]
  · intro hid
    unfold browse_files browseOneDrive
    rw [if_neg (show ¬("onedrive" = "sharepoint") by decide), if_pos rfl,
      if_neg (show ¬("onedrive" = "sharepoint") by decide), if_pos rfl]
    simp [h, truthy, hid]
  · intro hid items hl
    unfold browse_files browseOneDrive
    rw [if_neg (show ¬("onedrive" = "sharepoint") by decide), if_pos rfl]
    simp [h, truthy, hid, hl, handleOuter]

/-- C10 witness: the sample OneDrive environment, and the no-drive-id
404 at an environment whose default drive has no id. -/
theorem C10_onedrive_flow_witness :
    Sample.benv.meDrive = .ok ⟨"OD", some "OneDrive"⟩ ∧
    ("OD" : String) ≠ "" ∧
    browse_files Sample.benv "onedrive" none none none =
      browse_files Sample.benv "onedrive" none (some "OD") none ∧
    browse_files Sample.benvNoDrive "onedrive" none none none =
      Except.error ⟨404, "No OneDrive found"⟩ := by
  refine ⟨rfl, by decide, ?_, ?_⟩
  · exact (C10_onedrive_flow Sample.benv none none ⟨"OD", some "OneDrive"⟩ rfl).2.1
      (by decide)
  · exact (C10_onedrive_flow Sample.benvNoDrive none none ⟨"", none⟩ rfl).1 rfl

end BrowserProofs
